import Mathlib

/-!
Verification of the `Database` session layer of monsql (src/monsql/db.py).

The Python class `Database` is embedded as a pure state-transition model:

* the backend connection (`self.__db` and `self.__cursor`) is observed
  through an event log recording, in order, every `cursor.execute(sql)`,
  every `db.commit()` and the `db.close()` call;
* the handle cache `self.__table_map` is an association list from table
  name to `Table` handle;
* object identity of `Table` handles (Python `is`) is modelled by a
  per-session allocation counter: every handle constructed by the
  dialect hook `get_table_obj` carries a fresh identifier, so two
  handles are the identical instance exactly when they are equal;
* the dialect hooks `get_table_obj` and `list_tables` are abstract
  methods whose concrete code is not part of db.py; they are modelled
  from the spec (see their doc comments);
* a Python `raise MonSQLException(msg)` becomes returning
  `some exceptionValue` next to the state reached when the raise fires,
  so effects performed before an exception are kept, as in Python.
-/

namespace MonSQL

/-- The single exception class of the source (`exception.MonSQLException`),
carrying its message string. -/
structure MonSQLException where
  message : String
deriving DecidableEq, Repr

/-- The exception raised by `create_table` on an existing table without
`force_recreate` (the spec calls this kind `TableAlreadyExistsError`);
the source raises `MonSQLException('TABLE ALREADY EXISTS')`. -/
def TableAlreadyExistsError : MonSQLException :=
  ⟨"TABLE ALREADY EXISTS"⟩

/-- The exception raised by `create_table` on an empty primary-key
sequence (the spec calls this kind `InvalidSchemaError`); the source
raises `MonSQLException('PRIMARY KEY MUST AT LEAST CONTAINS ONE COLUMN')`. -/
def InvalidSchemaError : MonSQLException :=
  ⟨"PRIMARY KEY MUST AT LEAST CONTAINS ONE COLUMN"⟩

/-- The exception raised by `drop_table` on a missing table without
`silent` (the spec calls this kind `TableNotFoundError`); the source
raises `MonSQLException('TABLE %s DOES NOT EXIST' % tablename)`. -/
def TableNotFoundError (tablename : String) : MonSQLException :=
  ⟨("TABLE ") ++ tablename ++ (" DOES NOT EXIST")⟩

/-- Python's `str.lower` on a table name, embedded as per-character
lowering (the same function as `String.toLower`, written so the kernel
can evaluate it on concrete strings). -/
def lower (s : String) : String :=
  ⟨s.data.map Char.toLower⟩

/-- One observable action on the backend connection. -/
inductive Event where
  | exec (sql : String)
  | commit
  | close
deriving DecidableEq, Repr

/-- A Table handle. `id` is the allocation identifier modelling Python
object identity; `name` is the table name the handle was built for. -/
structure Table where
  id : Nat
  name : String
deriving DecidableEq, Repr

/-- The state of a `Database` session:

* `log` — ordered record of `execute` / `commit` / `close` on the shared
  connection and cursor;
* `tables` — the lower-case table names the backend would report through
  the `list_tables` dialect hook (a snapshot of the backend catalog);
* `table_map` — the handle cache `self.__table_map`;
* `nextId` — allocation counter for fresh handle identifiers;
* `mode` — the Transaction Mode `self.__mode` stored at construction
  (the `TRANSACTION_MODE` constants live in `config`, outside db.py, so
  the mode is carried opaquely as a number; none of the schema
  operations below ever reads it). -/
structure Database where
  log : List Event
  tables : List String
  table_map : List (String × Table)
  nextId : Nat
  mode : Nat
deriving DecidableEq, Repr

namespace Database

/-- `self.__cursor.execute(sql)`: record the statement on the shared cursor. -/
def execute (s : Database) (sql : String) : Database :=
  { s with log := s.log ++ [Event.exec sql] }

/-- `self.__db.commit()`: the connection commit primitive. -/
def db_commit (s : Database) : Database :=
  { s with log := s.log ++ [Event.commit] }

/-- Modelled from the spec: the dialect hook `list_tables` is an abstract
method ("Return a list of lower case table names"); its concrete code is
not in db.py, so it is modelled as reading the backend catalog snapshot
carried in the state. -/
def list_tables (s : Database) : List String :=
  s.tables

/-- Modelled from the spec: the dialect hook `get_table_obj` is an
abstract method constructing a new `Table` handle for the name ("created
on first `get(name)`"); its concrete code is not in db.py. Construction
of a fresh instance is modelled by drawing a fresh allocation
identifier. -/
def get_table_obj (s : Database) (name : String) : Table × Database :=
  (⟨s.nextId, name⟩, { s with nextId := s.nextId + 1 })

/-- `Database.__ensure_table_obj`: populate the cache on a miss via
`get_table_obj`, leave it untouched on a hit. -/
def ensure_table_obj (s : Database) (name : String) : Database :=
  match s.table_map.lookup name with
  | some _ => s
  | none =>
      let r := get_table_obj s name
      { r.2 with table_map := (name, r.1) :: r.2.table_map }

/-- `Database.get`: ensure the handle exists, then return the cached
entry `self.__table_map[name]` (the fallback arm is unreachable because
`ensure_table_obj` guarantees the entry is present). -/
def get (s : Database) (name : String) : Table × Database :=
  let s' := ensure_table_obj s name
  match s'.table_map.lookup name with
  | some t => (t, s')
  | none => (⟨0, name⟩, s')

/-- `Database.close`: `self.__db.close()` then `self.__table_map = {}`. -/
def close (s : Database) : Database :=
  { s with log := s.log ++ [Event.close], table_map := [] }

/-- `Database.commit`: forwards to `self.__db.commit()`. -/
def commit (s : Database) : Database :=
  db_commit s

/-- `Database.is_table_existed`: lower-case the name and test membership
in `list_tables()`. -/
def is_table_existed (s : Database) (tablename : String) : Bool :=
  let all_tablenames := list_tables s
  let tablename := lower tablename
  if all_tablenames.contains tablename then
    true
  else
    false

/-- `Database.drop_table`: raise unless `silent` or the table exists,
then `DROP TABLE IF EXISTS` on the cursor followed by a connection
commit. -/
def drop_table (s : Database) (tablename : String) (silent : Bool) :
    Database × Option MonSQLException :=
  if !silent && !(is_table_existed s tablename) then
    (s, some (TableNotFoundError tablename))
  else
    let s := execute s (("DROP TABLE IF EXISTS ") ++ tablename)
    (db_commit s, none)

/-- Lines 155-164 of `Database.create_table`, after the existence check:
build the column specs, handle the optional primary key, then execute
the `CREATE TABLE` statement and commit. -/
def create_table_rest (s : Database) (tablename : String)
    (columns : List String) (primary_key : Option (List String)) :
    Database × Option MonSQLException :=
  let columns_specs := String.intercalate (",") columns
  match primary_key with
  | some pk =>
      if pk.length == 0 then
        (s, some InvalidSchemaError)
      else
        let columns_specs :=
          columns_specs ++ (",PRIMARY KEY(") ++ String.intercalate (",") pk ++ (")")
        let sql := ("CREATE TABLE ") ++ tablename ++ ("(") ++ columns_specs ++ (")")
        (db_commit (execute s sql), none)
  | none =>
      let sql := ("CREATE TABLE ") ++ tablename ++ ("(") ++ columns_specs ++ (")")
      (db_commit (execute s sql), none)

/-- `Database.create_table`: on an existing table, drop it when
`force_recreate` else raise `TABLE ALREADY EXISTS`; then proceed as in
`create_table_rest`. -/
def create_table (s : Database) (tablename : String) (columns : List String)
    (primary_key : Option (List String)) (force_recreate : Bool) :
    Database × Option MonSQLException :=
  if is_table_existed s tablename then
    if force_recreate then
      match drop_table s tablename false with
      | (s', none) => create_table_rest s' tablename columns primary_key
      | (s', some e) => (s', some e)
    else
      (s, some TableAlreadyExistsError)
  else
    create_table_rest s tablename columns primary_key

/-- Well-formed session: every cached handle was allocated below the
current allocation counter (true of every state reachable from a fresh
session, since handles only enter the cache via `get_table_obj`). -/
def wf (s : Database) : Bool :=
  s.table_map.all (fun p => p.2.id < s.nextId)

end Database

open Database

/-- A concrete session used to instantiate the theorems: one table
`users` exists on the backend, the cache holds one handle for it, and
one allocation has been made. -/
def sampleSession : Database :=
  { log := []
    tables := [("users")]
    table_map := [(("users"), ⟨0, ("users")⟩)]
    nextId := 1
    mode := 0 }

/-- A concrete fresh session: empty backend catalog, empty cache. -/
def freshSession : Database :=
  { log := [], tables := [], table_map := [], nextId := 0, mode := 0 }

/-- Claim C1: on any session, a repeated `get` with the same name returns
the identical handle instance: the second call returns the first call's
handle and leaves the state unchanged; the resulting cache maps the name
to that handle; and when the name was not cached, the first call's
handle is exactly the one constructed by `get_table_obj`. -/
theorem get_same_handle (s : Database) (name : String) :
    get (get s name).2 name = ((get s name).1, (get s name).2) ∧
    (get s name).2.table_map.lookup name = some (get s name).1 ∧
    (s.table_map.lookup name = none →
      (get s name).1 = (get_table_obj s name).1) := by
  refine ⟨?_, ?_, ?_⟩
  · cases h : s.table_map.lookup name with
    | some t => simp [Database.get, ensure_table_obj, h]
    | none =>
        simp [Database.get, ensure_table_obj, get_table_obj, h, List.lookup]
  · cases h : s.table_map.lookup name with
    | some t => simp [Database.get, ensure_table_obj, h]
    | none =>
        simp [Database.get, ensure_table_obj, get_table_obj, h, List.lookup]
  · intro h
    simp [Database.get, ensure_table_obj, get_table_obj, h, List.lookup]

/-- Witness for C1 at the concrete `sampleSession` and name `users`. -/
theorem get_same_handle_witness :
    get (get sampleSession ("users")).2 ("users") =
      ((get sampleSession ("users")).1, (get sampleSession ("users")).2) ∧
    (get sampleSession ("users")).2.table_map.lookup ("users") =
      some (get sampleSession ("users")).1 ∧
    (sampleSession.table_map.lookup ("users") = none →
      (get sampleSession ("users")).1 = (get_table_obj sampleSession ("users")).1) :=
  get_same_handle sampleSession ("users")

/-- Claim C5: `is_table_existed` returns `true` exactly when the
lower-cased name is a member of the list returned by the dialect hook
`list_tables`. -/
theorem is_table_existed_iff (s : Database) (name : String) :
    is_table_existed s name = true ↔ lower name ∈ list_tables s := by
  simp [is_table_existed, list_tables]

/-- Claim C7: `close` records the connection close and clears the
table-handle cache, so no previously obtained handle remains reachable
through the session. -/
theorem close_clears_cache (s : Database) :
    (close s).table_map = [] ∧ (close s).log = s.log ++ [Event.close] := by
  simp [close]

/-- Helper: a successful `create_table_rest` call reaches exactly the
state that executes one `CREATE TABLE tablename(specs)` statement and
then commits. -/
theorem create_table_rest_ok (s : Database) (n : String) (cols : List String)
    (pk : Option (List String)) (s' : Database)
    (h : create_table_rest s n cols pk = (s', none)) :
    ∃ specs,
      s' = db_commit (execute s (("CREATE TABLE ") ++ n ++ ("(") ++ specs ++ (")"))) := by
  cases pk with
  | none =>
      refine ⟨String.intercalate (",") cols, ?_⟩
      simp only [create_table_rest, Prod.mk.injEq] at h
      exact h.1.symm
  | some pkl =>
      simp only [create_table_rest] at h
      split at h
      · exact absurd (congrArg Prod.snd h) (by simp)
      · refine ⟨String.intercalate (",") cols ++ (",PRIMARY KEY(") ++
          String.intercalate (",") pkl ++ (")"), ?_⟩
        have h1 := congrArg Prod.fst h
        exact h1.symm

/-- Helper: membership through `List.all` bounds the identifier of any
handle found by `List.lookup`. -/
theorem all_lookup_lt {k : Nat} {a : String} {t : Table} :
    ∀ l : List (String × Table), l.all (fun p => p.2.id < k) = true →
      l.lookup a = some t → t.id < k := by
  intro l
  induction l with
  | nil => intro _ hl; simp [List.lookup] at hl
  | cons p rest ih =>
      intro hall hl
      simp only [List.all_cons, Bool.and_eq_true, decide_eq_true_eq] at hall
      cases hbeq : (a == p.1) with
      | true =>
          have ht : t = p.2 := by
            cases p with
            | mk p1 p2 => simp [List.lookup_cons, hbeq] at hl; exact hl.symm
          rw [ht]
          exact hall.1
      | false =>
          have hl' : rest.lookup a = some t := by
            cases p with
            | mk p1 p2 => simpa [List.lookup_cons, hbeq] using hl
          exact ih hall.2 hl'

/-- Helper: a `get` right after `close` always allocates a fresh handle
carrying the closed session's allocation counter, because the cache is
empty. -/
theorem get_close_allocates (s : Database) (n : String) :
    (get (close s) n).1 = (⟨s.nextId, n⟩ : Table) := by
  simp [Database.get, close, ensure_table_obj, get_table_obj, List.lookup]

/-- Claim C2: on a session where the table exists (per the
case-insensitive existence check), `create_table` with
`force_recreate=False` fails with the `TABLE ALREADY EXISTS` exception
leaving the state untouched, while with `force_recreate=True` it first
drops the table (`DROP TABLE IF EXISTS` + commit) and then recreates it
(`CREATE TABLE` + commit), succeeding. -/
theorem create_table_existing (s : Database) (n : String) (cols : List String)
    (h : is_table_existed s n = true) :
    create_table s n cols none false = (s, some TableAlreadyExistsError) ∧
    create_table s n cols none true =
      (db_commit (execute (db_commit (execute s (("DROP TABLE IF EXISTS ") ++ n)))
        (("CREATE TABLE ") ++ n ++ ("(") ++ String.intercalate (",") cols ++ (")"))),
       none) ∧
    (create_table s n cols none true).1.log =
      s.log ++ [Event.exec (("DROP TABLE IF EXISTS ") ++ n), Event.commit,
        Event.exec (("CREATE TABLE ") ++ n ++ ("(") ++
          String.intercalate (",") cols ++ (")")), Event.commit] := by
  have hd : drop_table s n false =
      (db_commit (execute s (("DROP TABLE IF EXISTS ") ++ n)), none) := by
    simp [drop_table, h]
  refine ⟨?_, ?_, ?_⟩
  · simp [create_table, h]
  · simp [create_table, h, hd, create_table_rest]
  · simp [create_table, h, hd, create_table_rest, execute, db_commit]

/-- Witness for C2 at `sampleSession` (where `users` exists). -/
theorem create_table_existing_witness :
    create_table sampleSession ("users") [("id INT")] none false =
      (sampleSession, some TableAlreadyExistsError) ∧
    create_table sampleSession ("users") [("id INT")] none true =
      (db_commit (execute (db_commit (execute sampleSession
          (("DROP TABLE IF EXISTS ") ++ ("users"))))
        (("CREATE TABLE ") ++ ("users") ++ ("(") ++
          String.intercalate (",") [("id INT")] ++ (")"))), none) ∧
    (create_table sampleSession ("users") [("id INT")] none true).1.log =
      sampleSession.log ++ [Event.exec (("DROP TABLE IF EXISTS ") ++ ("users")),
        Event.commit,
        Event.exec (("CREATE TABLE ") ++ ("users") ++ ("(") ++
          String.intercalate (",") [("id INT")] ++ (")")), Event.commit] :=
  create_table_existing sampleSession ("users") [("id INT")] (by decide)

/-- Claim C3: `create_table` with an empty primary-key sequence on a
non-existing table fails with the empty-primary-key exception and issues
no SQL: the returned state is exactly the input state. -/
theorem create_table_empty_pk (s : Database) (n : String) (cols : List String)
    (fr : Bool) (h : is_table_existed s n = false) :
    create_table s n cols (some ([] : List String)) fr =
      (s, some InvalidSchemaError) := by
  simp [create_table, h, create_table_rest]

/-- Witness for C3 at `freshSession` (no tables exist). -/
theorem create_table_empty_pk_witness :
    create_table freshSession ("t") [("id INT")] (some ([] : List String)) false =
      (freshSession, some InvalidSchemaError) :=
  create_table_empty_pk freshSession ("t") [("id INT")] false (by decide)

/-- Claim C4: `drop_table` on a missing table fails with the
table-not-found exception when `silent` is false (leaving the state
unchanged); with `silent=True` it never fails; and every non-failing
call executes `DROP TABLE IF EXISTS` followed by a commit. -/
theorem drop_table_cases (s : Database) (n : String) :
    (is_table_existed s n = false →
      drop_table s n false = (s, some (TableNotFoundError n))) ∧
    drop_table s n true =
      (db_commit (execute s (("DROP TABLE IF EXISTS ") ++ n)), none) ∧
    (drop_table s n true).1.log =
      s.log ++ [Event.exec (("DROP TABLE IF EXISTS ") ++ n), Event.commit] ∧
    (is_table_existed s n = true →
      drop_table s n false =
        (db_commit (execute s (("DROP TABLE IF EXISTS ") ++ n)), none)) := by
  refine ⟨?_, ?_, ?_, ?_⟩
  · intro h; simp [drop_table, h]
  · simp [drop_table]
  · simp [drop_table, execute, db_commit]
  · intro h; simp [drop_table, h]

/-- Witness for C4: the missing-table failure at `freshSession` and the
silent and existing-table successes at concrete sessions. -/
theorem drop_table_cases_witness :
    drop_table freshSession ("missing") false =
      (freshSession, some (TableNotFoundError ("missing"))) ∧
    drop_table freshSession ("missing") true =
      (db_commit (execute freshSession (("DROP TABLE IF EXISTS ") ++ ("missing"))),
       none) ∧
    drop_table sampleSession ("users") false =
      (db_commit (execute sampleSession (("DROP TABLE IF EXISTS ") ++ ("users"))),
       none) :=
  ⟨(drop_table_cases freshSession ("missing")).1 (by decide),
   (drop_table_cases freshSession ("missing")).2.1,
   (drop_table_cases sampleSession ("users")).2.2.2 (by decide)⟩

/-- Claim C6: every successful `create_table` call ends with the
`CREATE TABLE` statement on the cursor immediately followed by a
connection commit — the last two events of the resulting log are
`exec (CREATE TABLE …)` then `commit`, with no caller-issued commit
needed. -/
theorem create_table_commits_after (s : Database) (n : String)
    (cols : List String) (pk : Option (List String)) (fr : Bool) (s' : Database)
    (h : create_table s n cols pk fr = (s', none)) :
    ∃ specs l, s'.log =
      l ++ [Event.exec (("CREATE TABLE ") ++ n ++ ("(") ++ specs ++ (")")),
        Event.commit] := by
  unfold create_table at h
  split at h
  case isTrue hex =>
    split at h
    case isTrue hfr =>
      have hd : drop_table s n false =
          (db_commit (execute s (("DROP TABLE IF EXISTS ") ++ n)), none) := by
        simp [drop_table, hex]
      rw [hd] at h
      obtain ⟨specs, hs⟩ := create_table_rest_ok _ _ _ _ _ h
      refine ⟨specs, (db_commit (execute s (("DROP TABLE IF EXISTS ") ++ n))).log, ?_⟩
      simp [hs, db_commit, execute]
    case isFalse hfr =>
      exact absurd (congrArg Prod.snd h) (by simp)
  case isFalse hex =>
    obtain ⟨specs, hs⟩ := create_table_rest_ok _ _ _ _ _ h
    refine ⟨specs, s.log, ?_⟩
    simp [hs, db_commit, execute]

/-- Witness for C6: creating a fresh table on `freshSession`. -/
theorem create_table_commits_after_witness :
    ∃ specs l, ((create_table freshSession ("t") [("id INT")] none false).1).log =
      l ++ [Event.exec (("CREATE TABLE ") ++ ("t") ++ ("(") ++ specs ++ (")")),
        Event.commit] :=
  create_table_commits_after freshSession ("t") [("id INT")] none false
    (create_table freshSession ("t") [("id INT")] none false).1 rfl

/-- Claim C8: on its two error paths — existing table with
`force_recreate=False` (any primary-key argument), and empty primary-key
sequence on a non-existing table (any `force_recreate`) — `create_table`
raises before executing any SQL or commit: the returned state is exactly
the input state, so backend log, catalog and handle cache are all
unchanged. -/
theorem create_table_error_atomic (s : Database) (n : String)
    (cols : List String) (pk : Option (List String)) (fr : Bool) :
    (is_table_existed s n = true →
      create_table s n cols pk false = (s, some TableAlreadyExistsError)) ∧
    (is_table_existed s n = false →
      create_table s n cols (some ([] : List String)) fr =
        (s, some InvalidSchemaError)) := by
  constructor
  · intro h; simp [create_table, h]
  · intro h; simp [create_table, h, create_table_rest]

/-- Witness for C8: both error paths at concrete sessions. -/
theorem create_table_error_atomic_witness :
    create_table sampleSession ("users") [("id INT")] none false =
      (sampleSession, some TableAlreadyExistsError) ∧
    create_table freshSession ("u") [("id INT")] (some ([] : List String)) false =
      (freshSession, some InvalidSchemaError) :=
  ⟨(create_table_error_atomic sampleSession ("users") [("id INT")] none false).1
      (by decide),
   (create_table_error_atomic freshSession ("u") [("id INT")] none false).2
      (by decide)⟩

/-- Claim C9: with `primary_key` omitted (`none`) on a non-existing
table, `create_table` never raises the empty-primary-key error and the
emitted statement is exactly `CREATE TABLE n(<comma-joined columns>)` —
no `,PRIMARY KEY(…)` clause is appended. -/
theorem create_table_no_pk_clause (s : Database) (n : String)
    (cols : List String) (fr : Bool) (h : is_table_existed s n = false) :
    create_table s n cols none fr =
      (db_commit (execute s (("CREATE TABLE ") ++ n ++ ("(") ++
        String.intercalate (",") cols ++ (")"))), none) := by
  simp [create_table, h, create_table_rest]

/-- Witness for C9 at `freshSession`. -/
theorem create_table_no_pk_clause_witness :
    create_table freshSession ("t") [("id INT"), ("v INT")] none false =
      (db_commit (execute freshSession (("CREATE TABLE ") ++ ("t") ++ ("(") ++
        String.intercalate (",") [("id INT"), ("v INT")] ++ (")"))), none) :=
  create_table_no_pk_clause freshSession ("t") [("id INT"), ("v INT")] false
    (by decide)

/-- Supporting invariant: `wf` (cached handle identifiers stay below the
allocation counter) is preserved by `get`; with `wf_close` and the
trivially well-formed fresh session this shows `wf` holds of every
session reachable through the modelled operations. -/
theorem wf_get (s : Database) (n : String) (h : wf s = true) :
    wf (get s n).2 = true := by
  cases hl : s.table_map.lookup n with
  | some t =>
      simpa [Database.get, ensure_table_obj, hl] using h
  | none =>
      simp only [wf, List.all_eq_true, decide_eq_true_eq] at h
      simp only [Database.get, ensure_table_obj, get_table_obj, hl, List.lookup_cons,
        beq_self_eq_true, wf, List.all_eq_true, decide_eq_true_eq]
      intro p hp
      cases hp with
      | head => exact Nat.lt_succ_self _
      | tail _ hmem => exact Nat.lt_succ_of_lt (h p hmem)

/-- Supporting invariant: `close` preserves well-formedness (the cache
becomes empty). -/
theorem wf_close (s : Database) : wf (close s) = true := by
  simp [wf, close]

/-- Claim C10: the handle-identity guarantee does not span `close`: on a
well-formed session (every cached handle allocated below the counter),
the handle returned by `get n` after a `close` is a distinct instance
from the handle returned by `get n` before it. -/
theorem get_after_close_fresh (s : Database) (n : String) (h : wf s = true) :
    (get (close (get s n).2) n).1 ≠ (get s n).1 := by
  cases hl : s.table_map.lookup n with
  | some t =>
      have h1 : get s n = (t, s) := by
        simp [Database.get, ensure_table_obj, hl]
      have hid : t.id < s.nextId := all_lookup_lt s.table_map h hl
      rw [h1]
      rw [get_close_allocates s n]
      show (⟨s.nextId, n⟩ : Table) ≠ t
      intro he
      rw [← he] at hid
      simp at hid
  | none =>
      have h1 : get s n =
          ((⟨s.nextId, n⟩ : Table),
           { s with nextId := s.nextId + 1,
                    table_map := (n, (⟨s.nextId, n⟩ : Table)) :: s.table_map }) := by
        simp [Database.get, ensure_table_obj, get_table_obj, hl, List.lookup]
      rw [h1]
      rw [get_close_allocates]
      simp

/-- Witness for C10 at `sampleSession`, which is well formed. -/
theorem get_after_close_fresh_witness :
    wf sampleSession = true ∧
    (get (close (get sampleSession ("users")).2) ("users")).1 ≠
      (get sampleSession ("users")).1 :=
  ⟨by decide, get_after_close_fresh sampleSession ("users") (by decide)⟩

end MonSQL
